import Mathlib

/-!
Verification of the MiniClub mini-golf score application (src/app.py).

The file shallowly embeds the identity store (login_or_register, login_user,
get_display_name, the EMAIL_RE validator and the registration form handler),
the score ledger (the submit_puntaje append path together with the
append_to_gsheet mirror relay), and the leaderboard computation
(sort by total, position assignment, head 50) as Lean definitions, and
proves the frozen claims about them.

Conventions of the embedding:
- pandas DataFrames become Lean lists of structure values, one structure
  per CSV row;
- Python strings become Lean String; Python str.strip / str.lower are
  embedded as py_strip / py_lower over the character list, because the
  built-in String.trim does not reduce in the kernel;
- the Streamlit session and widget layer is external: handlers take their
  widget inputs as arguments and return the stores they write;
- the Google Sheets mirror is external I/O; its possible behaviours are
  enumerated by MirrorEnv, and append_to_gsheet maps each behaviour to
  the warnings and remote rows the code produces (the code catches every
  exception of the relay, so the function is total);
- pandas sort_values uses its default sort kind, which is documented as
  not stable; its semantics is therefore embedded as the relation
  SortValuesTotal (output is a permutation of the input whose totals are
  ascending) rather than as one specific algorithm.
-/

namespace MiniClub

/-! ## Python string primitives -/

/-- Whitespace characters removed by Python str.strip (no argument). -/
def py_isspace (c : Char) : Bool :=
  c = ' ' || c = '\t' || c = '\n' || c = '\r' || c = '\x0b' || c = '\x0c'

/-- Embedding of Python str.strip (drop leading and trailing whitespace). -/
def py_strip (s : String) : String :=
  ⟨((s.data.dropWhile py_isspace).reverse.dropWhile py_isspace).reverse⟩

/-- Embedding of Python str.lower (per-character lowercasing; the inputs of
interest are ASCII, where Char.toLower agrees with Python). -/
def py_lower (s : String) : String :=
  ⟨s.data.map Char.toLower⟩

/-! ## Identity store (usuarios.csv) -/

/-- One row of usuarios.csv: columns email, nombre, nickname, fecha_registro
(app.py line 55). -/
structure User where
  email : String
  nombre : String
  nickname : String
  fecha_registro : String
deriving DecidableEq

/-- State of the usuarios.csv backing file: either readable with a list of
rows, or unreadable/corrupted (pd.read_csv raises). -/
inductive UsersFile where
  | ok (rows : List User)
  | unreadable
deriving DecidableEq

/-- load_users (app.py lines 113-117): read the CSV, and on any exception
return an empty frame. -/
def load_users : UsersFile → List User
  | .ok rows => rows
  | .unreadable => []

/-- First row whose email column equals e:
`df[df["email"] == email].iloc[0]` (app.py line 131); none when
`email in df["email"].values` is false. -/
def df_first_email (e : String) : List User → Option User
  | [] => none
  | u :: us => if u.email = e then some u else df_first_email e us

/-- `df.loc[df["email"] == email, ["nombre", "nickname"]] = [n, k]`
(app.py lines 136-138): set nombre and nickname on every row whose email
equals e. -/
def df_set_email (e n k : String) (df : List User) : List User :=
  df.map fun u => if u.email = e then { u with nombre := n, nickname := k } else u

/-- `email.strip().lower()` (app.py lines 127, 160). -/
def normalize_email (email : String) : String :=
  py_lower (py_strip email)

/-- The user_row update of login_or_register (app.py lines 131-135): the
first matching row with nombre and nickname overwritten by the stripped
inputs when those are non-empty. -/
def updated_row (nombre nickname : String) (row : User) : User :=
  { row with
    nombre := if py_strip nombre ≠ "" then py_strip nombre else row.nombre,
    nickname := if py_strip nickname ≠ "" then py_strip nickname else row.nickname }

/-- login_or_register (app.py lines 124-154). Returns the user_row stored
into the session and the list of rows written back by save_users. -/
def login_or_register (file : UsersFile) (email nombre nickname now : String) :
    User × List User :=
  match df_first_email (normalize_email email) (load_users file) with
  | some row =>
      (updated_row nombre nickname row,
       df_set_email (normalize_email email) (updated_row nombre nickname row).nombre
         (updated_row nombre nickname row).nickname (load_users file))
  | none =>
      (⟨normalize_email email, py_strip nombre, py_strip nickname, now⟩,
       load_users file ++ [⟨normalize_email email, py_strip nombre, py_strip nickname, now⟩])

/-- login_user (app.py lines 157-165): look up an existing user without
creating one; none plays the role of the Python return None. -/
def login_user (file : UsersFile) (email : String) : Option User :=
  df_first_email (normalize_email email) (load_users file)

/-- get_display_name (app.py lines 182-192). The session user is either a
row dict or None; Python truthiness of a string is non-emptiness. -/
def get_display_name : Option User → String
  | none => ""
  | some u =>
      if u.nickname ≠ "" then u.nickname
      else if u.nombre ≠ "" then u.nombre
      else u.email

/-! ## Email validation

EMAIL_RE = re.compile(r"[^@]+@[^@]+\.[^@]+") used via EMAIL_RE.match
(app.py lines 196, 263, 285).  re.match anchors at the start only, so the
call succeeds exactly when some PREFIX of the string matches the pattern:
a nonempty run without at-sign, an at-sign, a nonempty run without
at-sign, a dot, and one further character that is not an at-sign. -/

/-- After at least one character of the domain part has been consumed:
search for a dot followed by a character that is not an at-sign, failing
as soon as an at-sign is reached (the pattern's character classes cannot
cross an at-sign). -/
def dot_search : List Char → Bool
  | [] => false
  | c :: cs =>
      if c = '@' then false
      else if c = '.' then
        match cs with
        | [] => false
        | d :: _ => if d = '@' then dot_search cs else true
      else dot_search cs

/-- Match the part after the at-sign: one character that is not an at-sign,
then `dot_search`. -/
def tail_match : List Char → Bool
  | [] => false
  | c :: cs => if c = '@' then false else dot_search cs

/-- After at least one local-part character: scan to the first at-sign and
hand over to `tail_match`. -/
def email_seek : List Char → Bool
  | [] => false
  | c :: cs => if c = '@' then tail_match cs else email_seek cs

/-- Truthiness of `EMAIL_RE.match(s)`: the first character must not be an
at-sign, then `email_seek`. -/
def email_core : List Char → Bool
  | [] => false
  | c :: cs => if c = '@' then false else email_seek cs

/-- Truthiness of `EMAIL_RE.match(s)` on a Lean string. -/
def email_match (s : String) : Bool :=
  email_core s.data

/-- Modelled from the spec: a string of basic `local@domain.tld` shape, the
WHOLE string being local ++ at-sign ++ rest, with local nonempty and free
of at-signs, rest free of at-signs, and rest containing a dot that is
neither its first nor its last character.  This is the spec's wording of
the accepted set, used to compare against the code's prefix matcher. -/
def no_at (cs : List Char) : Bool :=
  cs.all fun c => c ≠ '@'

/-- Modelled from the spec: the part after the at-sign of a full
`domain.tld` match (see `email_shape_spec`). -/
def tail_full (cs : List Char) : Bool :=
  no_at cs && ((cs.drop 1).dropLast.contains '.')

/-- Modelled from the spec: scan the nonempty at-sign-free local part, then
require `tail_full` on the remainder (see `email_shape_spec`). -/
def email_seek_full : List Char → Bool
  | [] => false
  | c :: cs => if c = '@' then tail_full cs else email_seek_full cs

/-- Modelled from the spec: whether the whole string has the basic
`local@domain.tld` shape. -/
def email_shape_spec (s : String) : Bool :=
  match s.data with
  | [] => false
  | c :: cs => if c = '@' then false else email_seek_full cs

/-! ## Registration form handler -/

/-- Outcome of the form_registrar submit handler (app.py lines 282-292):
either one of the two st.error branches, or a registered session user. -/
inductive RegResult where
  | errEmpty
  | errInvalid
  | registered (u : User)
deriving DecidableEq

/-- Whether the handler ended in an st.error branch. -/
def RegResult.isError : RegResult → Bool
  | .errEmpty => true
  | .errInvalid => true
  | .registered _ => false

/-- form_registrar submit handler (app.py lines 282-292): empty email and
regex failure show an error without touching the store; otherwise
login_or_register runs and save_users rewrites the file. -/
def form_registrar (file : UsersFile) (email_reg nombre_reg nick_reg now : String) :
    RegResult × UsersFile :=
  if py_strip email_reg = "" then (.errEmpty, file)
  else if ¬ email_match (py_strip email_reg) then (.errInvalid, file)
  else
    let r := login_or_register file email_reg nombre_reg nick_reg now
    (.registered r.1, .ok r.2)

/-! ## Score ledger (scores.csv) and the Google Sheets mirror -/

/-- One row of scores.csv: columns fecha, email, nombre_mostrar,
hoyo_1..hoyo_14, total (app.py lines 60-61); the fourteen hole columns are
kept as a list. -/
structure ScoreRow where
  fecha : String
  email : String
  nombre_mostrar : String
  golpes : List Nat
  total : Nat
deriving DecidableEq

/-- The possible behaviours of the Google Sheets side, as distinguished by
the code: the gspread import failed (USE_GOOGLE_SHEETS becomes False,
app.py lines 40-45), get_gsheet_client raised (lines 75-90), the open or
append_row call raised (lines 100-104), or the append succeeded. -/
inductive MirrorEnv where
  | libMissing
  | credsError (msg : String)
  | writeError (msg : String)
  | ok
deriving DecidableEq

/-- What the mirror layer produced: sidebar warnings and rows actually
appended to the remote sheet. -/
structure MirrorResult where
  warnings : List String
  mirrored : List ScoreRow
deriving DecidableEq

/-- append_to_gsheet (app.py lines 93-104) together with get_gsheet_client
(lines 71-90): every failure is caught and reported as a sidebar warning;
the function never raises. -/
def append_to_gsheet (env : MirrorEnv) (row : ScoreRow) : MirrorResult :=
  match env with
  | .libMissing => ⟨[], []⟩
  | .credsError m => ⟨["Error conectando a Google Sheets: " ++ m], []⟩
  | .writeError m => ⟨["Error al escribir en Google Sheets: " ++ m], []⟩
  | .ok => ⟨[], [row]⟩

/-- Result of the submit_puntaje handler: the rows written back to
scores.csv, the mirror outcome, and the total reported by the closing
st.success call (always reached, so always some). -/
structure SubmitResult where
  scores : List ScoreRow
  mirror : MirrorResult
  reportedTotal : Option Nat
deriving DecidableEq

/-- submit_puntaje append path (app.py lines 330-343): compute the total,
append the new row to the local CSV (`df_scores.loc[len(df_scores)] =
nueva_fila` on a default range index appends one row at the end), relay
the same row to the mirror, and report success.  The handler performs no
validation of golpes. -/
def submit_puntaje (env : MirrorEnv) (scores : List ScoreRow)
    (fecha user_email display_name : String) (golpes : List Nat) : SubmitResult :=
  let total := golpes.sum
  let nueva_fila : ScoreRow := ⟨fecha, user_email, display_name, golpes, total⟩
  let df_scores := scores ++ [nueva_fila]
  let m := append_to_gsheet env nueva_fila
  ⟨df_scores, m, some total⟩

/-- st.number_input with min_value lo and max_value hi (app.py lines
320-326): the widget only ever yields a value within its bounds; the raw
session value is forced into [lo, hi]. -/
def number_input (lo hi x : Nat) : Nat :=
  max lo (min hi x)

/-- The whole Registrar puntaje form (app.py lines 316-343): fourteen
number inputs, one per hole i in 1..14, each bounded to [1, 20] with the
raw widget state given by `raw i`, collected into golpes and passed to the
submit handler. -/
def form_puntaje (env : MirrorEnv) (scores : List ScoreRow)
    (fecha user_email display_name : String) (raw : Nat → Nat) : SubmitResult :=
  let golpes := (List.range 14).map fun j => number_input 1 20 (raw (j + 1))
  submit_puntaje env scores fecha user_email display_name golpes

/-! ## Leaderboard (Ver ranking) -/

/-- One displayed ranking row: the projected columns pos, fecha,
nombre_mostrar, email, total (app.py line 380). -/
structure LeaderRow where
  pos : Nat
  fecha : String
  nombre_mostrar : String
  email : String
  total : Nat
deriving DecidableEq

/-- Semantics of `df.sort_values("total")` (app.py line 377): pandas with
its default sort kind guarantees only that the output rows are a
permutation of the input rows whose total column is ascending; the default
kind is documented as not stable, so no tie order is pinned down.  An
output list stands in this relation to the input exactly when pandas may
produce it. -/
def SortValuesTotal (df out : List ScoreRow) : Prop :=
  List.Perm out df ∧ List.Sorted (· ≤ ·) (out.map ScoreRow.total)

/-- The rest of the ranking screen after the sort (app.py lines 378-380):
`df["pos"] = range(1, len(df) + 1)` then the projected columns of
`df.head(50)`, applied to the sorted frame. -/
def ver_ranking_rows (sortedDf : List ScoreRow) : List LeaderRow :=
  (sortedDf.enum.map fun p =>
    LeaderRow.mk (p.1 + 1) p.2.fecha p.2.nombre_mostrar p.2.email p.2.total).take 50

/-! ## Concrete inputs used by counterexamples and witnesses -/

/-- Scorecard with total 50, first appended (claim C3's example). -/
def c50 : ScoreRow := ⟨"2024-01-01 10:00:00", "a@x.com", "A", [], 50⟩

/-- First scorecard with total 42, second appended. -/
def c42a : ScoreRow := ⟨"2024-01-01 11:00:00", "b@x.com", "B", [], 42⟩

/-- Second scorecard with total 42, third appended. -/
def c42b : ScoreRow := ⟨"2024-01-01 12:00:00", "c@x.com", "C", [], 42⟩

/-- Scorecard with total 60, fourth appended. -/
def c60 : ScoreRow := ⟨"2024-01-01 13:00:00", "d@x.com", "D", [], 60⟩

/-- The ledger of claim C3's example, in append order. -/
def ex4 : List ScoreRow := [c50, c42a, c42b, c60]

/-- A total-ascending permutation of ex4 in which the two 42-total cards
appear in the reverse of their append order. -/
def ex4_swapped : List ScoreRow := [c42b, c42a, c50, c60]

/-- A scorecard row with the given total, for bulk examples. -/
def mkRow (i : Nat) : ScoreRow := ⟨"2024-01-01 10:00:00", "p@x.com", "P", [], i⟩

/-- Sixty scorecards with totals 0..59, already in ascending order. -/
def l60 : List ScoreRow := (List.range 60).map mkRow

/-- The stored profile used by claim C7's witness. -/
def bobRow : User := ⟨"a@b.c", "Bob", "Nick", "t0"⟩

/-- Modelled from the spec: displayName as the spec words it, with blank
meaning trimming to the empty string (the reading the spec itself uses for
the name and nickname update rule). -/
def displayName_spec : Option User → String
  | none => ""
  | some u =>
      if py_strip u.nickname ≠ "" then u.nickname
      else if py_strip u.nombre ≠ "" then u.nombre
      else if py_strip u.email ≠ "" then u.email
      else ""

/-! ## Helper lemmas -/

/-- Rewriting nombre and nickname of the rows matching an email leaves the
email column unchanged. -/
theorem map_email_set (e n k : String) (df : List User) :
    (df_set_email e n k df).map User.email = df.map User.email := by
  unfold df_set_email
  induction df with
  | nil => rfl
  | cons u us ih =>
      simp only [List.map_cons, List.map_map] at ih ⊢
      rw [ih]
      congr 1
      by_cases hu : u.email = e
      · simp [hu]
      · simp [hu]

/-- When no row matches an email, every stored email differs from it. -/
theorem df_first_email_none (e : String) (df : List User)
    (h : df_first_email e df = none) : ∀ u ∈ df, u.email ≠ e := by
  induction df with
  | nil => intro u hu; exact absurd hu (List.not_mem_nil u)
  | cons v us ih =>
      unfold df_first_email at h
      by_cases hv : v.email = e
      · rw [if_pos hv] at h; exact absurd h (by simp)
      · rw [if_neg hv] at h
        intro u hu
        rcases List.mem_cons.mp hu with rfl | hu
        · exact hv
        · exact ih h u hu

/-- Looking up an email after df_set_email on that email returns the first
match with its nombre and nickname fields rewritten. -/
theorem df_first_email_set (e n k : String) (df : List User) :
    df_first_email e (df_set_email e n k df)
      = (df_first_email e df).map fun u => { u with nombre := n, nickname := k } := by
  induction df with
  | nil => rfl
  | cons u us ih =>
      by_cases hu : u.email = e
      · simp [df_set_email, df_first_email, hu]
      · simp only [df_set_email] at ih
        simp [df_set_email, df_first_email, hu, ih]

/-- The total column of the displayed ranking is the first fifty entries of
the total column of the sorted frame. -/
theorem ver_map_total (df : List ScoreRow) :
    (ver_ranking_rows df).map LeaderRow.total = (df.map ScoreRow.total).take 50 := by
  unfold ver_ranking_rows
  rw [List.map_take, List.map_map]
  congr 1
  have h : df.enum.map (LeaderRow.total ∘ fun p : Nat × ScoreRow =>
      LeaderRow.mk (p.1 + 1) p.2.fecha p.2.nombre_mostrar p.2.email p.2.total)
      = df.enum.map (ScoreRow.total ∘ Prod.snd) := rfl
  rw [h, ← List.map_map, List.enum_map_snd]

/-- The pos column of the displayed ranking is 1, 2, ... up to the cap. -/
theorem ver_map_pos (df : List ScoreRow) :
    (ver_ranking_rows df).map LeaderRow.pos
      = (List.range (min 50 df.length)).map (· + 1) := by
  unfold ver_ranking_rows
  rw [List.map_take, List.map_map]
  have h : df.enum.map (LeaderRow.pos ∘ fun p : Nat × ScoreRow =>
      LeaderRow.mk (p.1 + 1) p.2.fecha p.2.nombre_mostrar p.2.email p.2.total)
      = df.enum.map ((· + 1) ∘ Prod.fst) := rfl
  rw [h, ← List.map_map, List.enum_map_fst, ← List.map_take, List.take_range]

/-- The displayed ranking has min 50 n rows for a sorted frame of n rows. -/
theorem ver_length (df : List ScoreRow) :
    (ver_ranking_rows df).length = min 50 df.length := by
  simp [ver_ranking_rows]

/-- Any output pandas may produce for the sort has, as its total column,
the uniquely determined ascending ordering of the input totals. -/
theorem sorted_totals_eq (l out : List ScoreRow) (h : SortValuesTotal l out) :
    out.map ScoreRow.total = List.insertionSort (· ≤ ·) (l.map ScoreRow.total) := by
  refine List.eq_of_perm_of_sorted ?_ h.2 (List.sorted_insertionSort _ _)
  exact (h.1.map ScoreRow.total).trans (List.perm_insertionSort _ _).symm

/-! ## Claims -/

/-- Claim C1, counterexample: the append path itself does not fail on an
out-of-shape stroke sequence.  The list with the single entry 0 has length
different from 14 and contains a value outside the range 1 to 20, yet the
submit handler writes a row for it to the previously empty ledger instead
of failing and leaving the ledger unchanged. -/
theorem c1_counterexample :
    ([0] : List Nat).length ≠ 14 ∧ (0 : Nat) ∈ ([0] : List Nat) ∧
    ¬ (1 ≤ (0 : Nat) ∧ (0 : Nat) ≤ 20) ∧
    (submit_puntaje MirrorEnv.ok [] "2024-01-01 10:00:00" "e@x.com" "E" [0]).scores
      = [⟨"2024-01-01 10:00:00", "e@x.com", "E", [0], 0⟩] := by
  decide

/-- Claim C1, amended: the append handler performs no validation; instead
the score form collects exactly fourteen widget values, each forced into
the range 1 to 20 by the number input bounds, so the row the form appends
always holds fourteen strokes in range, and an out-of-shape sequence never
reaches the ledger through the form. -/
theorem c1_thm (env : MirrorEnv) (scores : List ScoreRow)
    (fecha user_email display_name : String) (raw : Nat → Nat) :
    ∃ golpes : List Nat, golpes.length = 14 ∧ (∀ g ∈ golpes, 1 ≤ g ∧ g ≤ 20) ∧
      (form_puntaje env scores fecha user_email display_name raw).scores
        = scores ++ [⟨fecha, user_email, display_name, golpes, golpes.sum⟩] := by
  refine ⟨(List.range 14).map fun j => number_input 1 20 (raw (j + 1)), by simp, ?_, rfl⟩
  intro g hg
  rcases List.mem_map.mp hg with ⟨j, _, rfl⟩
  unfold number_input
  exact ⟨le_max_left _ _, max_le (by norm_num) (min_le_left _ _)⟩

/-- Claim C2: whichever way the mirror relay fails (missing library,
credential error, or write error), the submitted row is still appended to
the local store, the handler still reports success with the computed
total, and nothing reaches the remote sheet; the mirror failure surfaces
only as a caught warning inside append_to_gsheet. -/
theorem c2_thm (env : MirrorEnv) (scores : List ScoreRow)
    (fecha user_email display_name : String) (golpes : List Nat)
    (hfail : env ≠ MirrorEnv.ok)
    (hlen : golpes.length = 14) (hrange : ∀ g ∈ golpes, 1 ≤ g ∧ g ≤ 20) :
    (submit_puntaje env scores fecha user_email display_name golpes).scores
      = scores ++ [⟨fecha, user_email, display_name, golpes, golpes.sum⟩] ∧
    (submit_puntaje env scores fecha user_email display_name golpes).reportedTotal
      = some golpes.sum ∧
    (submit_puntaje env scores fecha user_email display_name golpes).mirror.mirrored = [] := by
  refine ⟨rfl, rfl, ?_⟩
  cases env with
  | ok => exact absurd rfl hfail
  | libMissing => rfl
  | credsError m => rfl
  | writeError m => rfl

/-- Claim C2, witness: a valid all-threes scorecard submitted while the
mirror library is missing still lands in the local store with success
reported. -/
theorem c2_witness :
    (submit_puntaje MirrorEnv.libMissing [] "2024-01-01 10:00:00" "e@x.com" "E"
        (List.replicate 14 3)).scores
      = [] ++ [⟨"2024-01-01 10:00:00", "e@x.com", "E", List.replicate 14 3,
          (List.replicate 14 3).sum⟩] ∧
    (submit_puntaje MirrorEnv.libMissing [] "2024-01-01 10:00:00" "e@x.com" "E"
        (List.replicate 14 3)).reportedTotal = some (List.replicate 14 3).sum ∧
    (submit_puntaje MirrorEnv.libMissing [] "2024-01-01 10:00:00" "e@x.com" "E"
        (List.replicate 14 3)).mirror.mirrored = [] :=
  c2_thm MirrorEnv.libMissing [] "2024-01-01 10:00:00" "e@x.com" "E"
    (List.replicate 14 3) (by decide) (by decide) (by decide)

/-- Claim C3, counterexample: the sort the ranking screen performs carries
no stability guarantee, so an output in which the two 42-total cards
appear in the reverse of their append order (c42a was appended before
c42b) is admitted by the sort semantics and would be displayed with the
42-cards swapped. -/
theorem c3_counterexample :
    SortValuesTotal ex4 ex4_swapped ∧
    c42a.email = "b@x.com" ∧ c42b.email = "c@x.com" ∧
    (ver_ranking_rows ex4_swapped).map LeaderRow.email
      = ["c@x.com", "b@x.com", "a@x.com", "d@x.com"] :=
  ⟨⟨by decide, by decide⟩, by decide, by decide, by decide⟩

/-- Claim C3, amended: the ranking sorts ascending by the stored total,
and for cards with totals 50, 42, 42, 60 appended in that order the All
window yields positions 1, 2, 3, 4 with totals 42, 42, 50, 60; the
relative order of the two 42-total cards, however, is not guaranteed,
because the sort is performed with the library's default algorithm, which
is not stable. -/
theorem c3_thm (l out : List ScoreRow) (h : SortValuesTotal l out) :
    List.Sorted (· ≤ ·) ((ver_ranking_rows out).map LeaderRow.total) ∧
    (l = ex4 →
      (ver_ranking_rows out).map LeaderRow.total = [42, 42, 50, 60] ∧
      (ver_ranking_rows out).map LeaderRow.pos = [1, 2, 3, 4]) := by
  constructor
  · rw [ver_map_total]
    exact h.2.sublist (List.take_sublist _ _)
  · rintro rfl
    have hlen : out.length = 4 := h.1.length_eq
    constructor
    · rw [ver_map_total, sorted_totals_eq ex4 out h]
      decide
    · rw [ver_map_pos, hlen]
      decide

/-- Claim C3, witness: the amended statement evaluated on the example
ledger and the swapped sort output. -/
theorem c3_witness :
    List.Sorted (· ≤ ·) ((ver_ranking_rows ex4_swapped).map LeaderRow.total) ∧
    (ex4 = ex4 →
      (ver_ranking_rows ex4_swapped).map LeaderRow.total = [42, 42, 50, 60] ∧
      (ver_ranking_rows ex4_swapped).map LeaderRow.pos = [1, 2, 3, 4]) :=
  c3_thm ex4 ex4_swapped ⟨by decide, by decide⟩

/-- Claim C4: login_or_register preserves the one-profile-per-email
invariant (a store whose email column has no duplicates keeps that shape),
and the concrete two-call scenario first creates the profile under the
normalized email a at b dot com and then updates its name in place,
leaving a single row and no duplicate. -/
theorem c4_thm (file : UsersFile) (email nombre nickname now : String)
    (h : ((load_users file).map User.email).Nodup) :
    (((login_or_register file email nombre nickname now).2).map User.email).Nodup ∧
    (login_or_register (UsersFile.ok
        (login_or_register (UsersFile.ok []) "A@B.com" "" "" "t1").2)
        "a@b.com" "X" "" "t2").2 = [⟨"a@b.com", "X", "", "t1"⟩] := by
  constructor
  · unfold login_or_register
    cases hf : df_first_email (normalize_email email) (load_users file) with
    | some row =>
        rw [map_email_set]
        exact h
    | none =>
        rw [List.map_append]
        refine List.Nodup.append h (List.nodup_singleton _) ?_
        intro a ha hb
        rcases List.mem_map.mp ha with ⟨u, hu, rfl⟩
        have hne := df_first_email_none _ _ hf u hu
        simp only [List.map_cons, List.map_nil, List.mem_singleton] at hb
        exact hne hb
  · decide

/-- Claim C4, witness: the invariant instantiated at the empty store and
the first call of the scenario. -/
theorem c4_witness :
    (((login_or_register (UsersFile.ok []) "A@B.com" "" "" "t1").2).map User.email).Nodup ∧
    (login_or_register (UsersFile.ok
        (login_or_register (UsersFile.ok []) "A@B.com" "" "" "t1").2)
        "a@b.com" "X" "" "t2").2 = [⟨"a@b.com", "X", "", "t1"⟩] :=
  c4_thm (UsersFile.ok []) "A@B.com" "" "" "t1" (by decide)

/-- Claim C5: the submit handler is append-only on the local score store:
it adds exactly one row, at the end, and every previously stored row is
still present, unmodified, in its original position. -/
theorem c5_thm (env : MirrorEnv) (scores : List ScoreRow)
    (fecha user_email display_name : String) (golpes : List Nat) :
    (submit_puntaje env scores fecha user_email display_name golpes).scores.length
      = scores.length + 1 ∧
    (submit_puntaje env scores fecha user_email display_name golpes).scores.take scores.length
      = scores ∧
    (submit_puntaje env scores fecha user_email display_name golpes).scores.getLast?
      = some ⟨fecha, user_email, display_name, golpes, golpes.sum⟩ := by
  refine ⟨by simp [submit_puntaje], ?_, ?_⟩
  · simpa [submit_puntaje] using
      List.take_left scores [(⟨fecha, user_email, display_name, golpes, golpes.sum⟩ : ScoreRow)]
  · simp [submit_puntaje, List.getLast?_concat]

/-- Claim C6, counterexample: get_display_name tests Python truthiness,
which for strings is non-emptiness, not non-blankness.  For a profile
whose nickname is two spaces (blank but non-empty) and whose name is Bob,
the claim prescribes Bob, but the code returns the blank nickname. -/
theorem c6_counterexample :
    displayName_spec (some ⟨"a@x.com", "Bob", "  ", "t"⟩) = "Bob" ∧
    get_display_name (some ⟨"a@x.com", "Bob", "  ", "t"⟩) = "  " ∧
    ("  " : String) ≠ "Bob" := by
  decide

/-- Claim C6, amended: the display-name function returns the nickname if
it is non-EMPTY, else the name if non-empty, else the email, and the
empty string for a missing user; it is a pure function of the profile. -/
theorem c6_thm (u : User) :
    (u.nickname ≠ "" → get_display_name (some u) = u.nickname) ∧
    (u.nickname = "" → u.nombre ≠ "" → get_display_name (some u) = u.nombre) ∧
    (u.nickname = "" → u.nombre = "" → get_display_name (some u) = u.email) ∧
    get_display_name (none : Option User) = "" := by
  refine ⟨?_, ?_, ?_, rfl⟩
  · intro h1
    simp [get_display_name, h1]
  · intro h1 h2
    simp [get_display_name, h1, h2]
  · intro h1 h2
    simp [get_display_name, h1, h2]

/-- Claim C6, witness: a profile with a non-empty nickname displays it. -/
theorem c6_witness :
    get_display_name (some ⟨"a@x.com", "Bob", "Nick", "t"⟩) = "Nick" :=
  (c6_thm ⟨"a@x.com", "Bob", "Nick", "t"⟩).1 (by decide)

/-- Claim C7: when a profile for the normalized email exists, calling
login_or_register with a blank (whitespace-only or empty) name leaves the
stored name exactly as it was, and likewise for the nickname; blank input
never overwrites a stored value. -/
theorem c7_thm (file : UsersFile) (email nombre nickname now : String) (u : User)
    (hfind : df_first_email (normalize_email email) (load_users file) = some u) :
    (py_strip nombre = "" →
      ((df_first_email (normalize_email email)
          ((login_or_register file email nombre nickname now).2)).map User.nombre)
        = some u.nombre) ∧
    (py_strip nickname = "" →
      ((df_first_email (normalize_email email)
          ((login_or_register file email nombre nickname now).2)).map User.nickname)
        = some u.nickname) := by
  unfold login_or_register
  rw [hfind]
  constructor
  · intro hb
    rw [df_first_email_set, hfind]
    simp [updated_row, hb]
  · intro hb
    rw [df_first_email_set, hfind]
    simp [updated_row, hb]

/-- Claim C7, witness: blank name and nickname inputs on an update of the
stored Bob/Nick profile leave both stored values unchanged. -/
theorem c7_witness :
    ((df_first_email (normalize_email "a@b.c")
        ((login_or_register (UsersFile.ok [bobRow]) "a@b.c" "  " "" "t2").2)).map User.nombre
      = some "Bob") ∧
    ((df_first_email (normalize_email "a@b.c")
        ((login_or_register (UsersFile.ok [bobRow]) "a@b.c" "  " "" "t2").2)).map User.nickname
      = some "Nick") := by
  have h := c7_thm (UsersFile.ok [bobRow]) "a@b.c" "  " "" "t2" bobRow (by decide)
  exact ⟨h.1 (by decide), h.2 (by decide)⟩

/-- Claim C8, counterexample: the validator applies the email pattern with
a prefix match (re.match is unanchored at the end), so the registration
form accepts the string a at b dot c at d, which does not have the basic
local at domain dot tld shape (it contains a second at-sign), and it
creates a profile for it. -/
theorem c8_counterexample :
    email_shape_spec "a@b.c@d" = false ∧
    email_match "a@b.c@d" = true ∧
    (form_registrar (UsersFile.ok []) "a@b.c@d" "" "" "t").1
      = RegResult.registered ⟨"a@b.c@d", "", "", "t"⟩ ∧
    (form_registrar (UsersFile.ok []) "a@b.c@d" "" "" "t").2
      = UsersFile.ok [⟨"a@b.c@d", "", "", "t"⟩] := by
  decide

/-- Claim C8, amended: registration fails exactly when no prefix of the
trimmed input matches the local at domain dot tld pattern (the empty
input also fails, matching no prefix), and on failure the identity store
is left untouched; every accepted string therefore has a matching prefix,
though possibly with trailing characters beyond it. -/
theorem c8_thm (file : UsersFile) (email_reg nombre_reg nick_reg now : String) :
    ((form_registrar file email_reg nombre_reg nick_reg now).1.isError = true
      ↔ email_match (py_strip email_reg) = false) ∧
    ((form_registrar file email_reg nombre_reg nick_reg now).1.isError = true →
      (form_registrar file email_reg nombre_reg nick_reg now).2 = file) := by
  unfold form_registrar
  by_cases h1 : py_strip email_reg = ""
  · rw [h1]
    simp [RegResult.isError, email_match, email_core]
  · by_cases h2 : email_match (py_strip email_reg) = true
    · simp [h1, h2, RegResult.isError]
    · simp only [Bool.not_eq_true] at h2
      simp [h1, h2, RegResult.isError]

/-- Claim C8, witness: a plain word with no at-sign is rejected and the
store is unchanged. -/
theorem c8_witness :
    (form_registrar (UsersFile.ok []) "notanemail" "" "" "t").2 = UsersFile.ok [] :=
  (c8_thm (UsersFile.ok []) "notanemail" "" "" "t").2 (by decide)

/-- Claim C9: for any sorted output pandas may produce from a ledger of n
rows, the displayed ranking consists of the first min n 50 rows, its pos
column is the dense sequence 1 .. min n 50, and its total column is the
ascending list of the n totals cut to the first fifty, that is, the fifty
smallest totals. -/
theorem c9_thm (l out : List ScoreRow) (h : SortValuesTotal l out) :
    (ver_ranking_rows out).length = min l.length 50 ∧
    (ver_ranking_rows out).map LeaderRow.pos
      = (List.range (min l.length 50)).map (· + 1) ∧
    (ver_ranking_rows out).map LeaderRow.total
      = (List.insertionSort (· ≤ ·) (l.map ScoreRow.total)).take 50 := by
  have hlen : out.length = l.length := h.1.length_eq
  refine ⟨?_, ?_, ?_⟩
  · rw [ver_length, hlen, Nat.min_comm]
  · rw [ver_map_pos, hlen, Nat.min_comm]
  · rw [ver_map_total, sorted_totals_eq l out h]

/-- Claim C9, witness: sixty scorecards with totals 0 .. 59 yield exactly
fifty rows with positions 1 .. 50 and the fifty smallest totals. -/
theorem c9_witness :
    (ver_ranking_rows l60).length = min l60.length 50 ∧
    (ver_ranking_rows l60).map LeaderRow.pos
      = (List.range (min l60.length 50)).map (· + 1) ∧
    (ver_ranking_rows l60).map LeaderRow.total
      = (List.insertionSort (· ≤ ·) (l60.map ScoreRow.total)).take 50 :=
  c9_thm l60 l60 ⟨List.Perm.refl l60, by decide⟩

/-- Claim C10: reading an unreadable users file yields the empty table
(load_users catches the exception), so login_user finds nobody, and
login_or_register creates a fresh profile and rewrites the store with
exactly that one profile, discarding whatever the file held. -/
theorem c10_thm (email nombre nickname now : String) :
    load_users UsersFile.unreadable = [] ∧
    login_user UsersFile.unreadable email = none ∧
    (login_or_register UsersFile.unreadable email nombre nickname now).1
      = ⟨normalize_email email, py_strip nombre, py_strip nickname, now⟩ ∧
    (login_or_register UsersFile.unreadable email nombre nickname now).2
      = [⟨normalize_email email, py_strip nombre, py_strip nickname, now⟩] :=
  ⟨rfl, rfl, rfl, rfl⟩

end MiniClub
